import Mathlib

/-
  Verification of the connection-resilience and retry layer of the license-app
  backend.

  Embedded source:
  * src/config/database.js — module pool state, createPool, query (retry loop,
    failure classification, pool invalidation), attempt body connection
    handling;
  * src/app.js (EmailService) — initialize, sendMail, createMailOptions,
    validateEmailOptions;
  * the npm `retry` package that both files drive (retry.operation /
    operation.attempt / operation.retry / operation.mainError), a dependency
    of the repository: its timeout schedule and error bookkeeping are embedded
    from that package since the repository code's observable behavior is
    defined through it.

  Conventions: machine integers are Nat (all quantities are nonnegative
  millisecond counts or counters and never overflow in practice); a JS value
  that may be absent/falsy is an Option; a rejected promise is an `Except`
  error.
-/

namespace LicenseApp

/-- A JavaScript `Error` as observed by the retry layer: mysql2/nodemailer
errors carry a string `code` (e.g. "ETIMEDOUT"); a plain `new Error(msg)`
has none. -/
structure JsError where
  code : Option String
  message : String
  deriving DecidableEq, Repr

/-- The options object passed to `retry.operation` at the three call sites
(database.js 51-56, app.js 200-205, app.js 267-272): `retries`, `factor`,
`minTimeout`, `maxTimeout`; `randomize` is never set, so it is false. -/
structure RetryPolicy where
  retries : Nat
  factor : Nat
  minTimeout : Nat
  maxTimeout : Nat
  deriving DecidableEq, Repr

/-- `retry.createTimeout(attempt, opts)` from the npm retry package with
`randomize` false: `Math.min(Math.round(1 * Math.max(minTimeout, 1) *
Math.pow(factor, attempt)), maxTimeout)`. -/
def createTimeout (attempt : Nat) (opts : RetryPolicy) : Nat :=
  min (max opts.minTimeout 1 * opts.factor ^ attempt) opts.maxTimeout

/-- `retry.timeouts(options)`: one timeout per allowed retry
(`for (i = 0; i < retries; i++) timeouts.push(createTimeout(i, opts))`),
then sorted ascending (`timeouts.sort((a, b) => a - b)`; modeled with
insertion sort, which computes the same ascending reordering). -/
def retryTimeouts (opts : RetryPolicy) : List Nat :=
  List.insertionSort (· ≤ ·)
    ((List.range opts.retries).map (fun i => createTimeout i opts))

/-- The loop body of `RetryOperation.prototype.mainError()`: walk the recorded
errors keeping a running count per message; the candidate is replaced whenever
the current error's message count reaches the running maximum
(`if (count >= mainErrorCount)`), so ties go to the latest error. -/
def mainErrorLoop : List JsError → (String → Nat) → Option JsError → Nat →
    Option JsError
  | [], _, best, _ => best
  | e :: rest, counts, best, bestCount =>
    let count := counts e.message + 1
    let counts' : String → Nat := fun m => if m = e.message then count else counts m
    if bestCount ≤ count then
      mainErrorLoop rest counts' (some e) count
    else
      mainErrorLoop rest counts' best bestCount

/-- `operation.mainError()`: the recorded error whose message occurs most
often, ties resolved in favor of the latest such error; `null` when no error
was recorded. -/
def mainError (errors : List JsError) : Option JsError :=
  mainErrorLoop errors (fun _ => 0) none 0

/-- Equality of promise outcomes is decidable, so concrete runs can be checked
by evaluation. -/
instance {ε α : Type} [DecidableEq ε] [DecidableEq α] :
    DecidableEq (Except ε α) := fun x y =>
  match x, y with
  | .ok a, .ok b =>
    if h : a = b then .isTrue (h ▸ rfl)
    else .isFalse (fun hh => h (Except.ok.inj hh))
  | .ok _, .error _ => .isFalse (fun hh => Except.noConfusion hh)
  | .error _, .ok _ => .isFalse (fun hh => Except.noConfusion hh)
  | .error a, .error b =>
    if h : a = b then .isTrue (h ▸ rfl)
    else .isFalse (fun hh => h (Except.error.inj hh))

/-- The observable outcome of one retried call: the value it resolved with or
the error it rejected with (`operation.mainError()`), the total number of
attempts executed, the delays waited between attempts (`delays[n-2]` is the
wait before attempt `n`; attempt 1 has no entry), the errors recorded by
`operation.retry`, and the final shared mutable state threaded through the
attempts. -/
structure RunResult (σ α : Type) where
  result : Except JsError α
  attempts : Nat
  delays : List Nat
  errors : List JsError
  state : σ
  deriving Repr

/-- The `operation.attempt` / `operation.retry` driver shared by `query`
(database.js 58-95), `EmailService.initialize` (app.js 207-242) and
`EmailService.sendMail` (app.js 274-288): run `step` for the current attempt
against the shared state; on success resolve with the value; on failure record
the error, apply the caller's failure hook (database.js nulls the pool on
connection-class codes before calling `operation.retry`), and if a timeout
remains (`this._timeouts.shift()` defined) wait it out and re-attempt,
otherwise reject `operation.mainError()`. At the rejection point at least one
error has been recorded, so `mainError` is never `null`; the `getD` default is
unreachable. -/
def runRetryAux (step : Nat → σ → σ × Except JsError α)
    (onFail : JsError → σ → σ) :
    List Nat → Nat → σ → List JsError → List Nat → RunResult σ α
  | timeouts, attempt, s, errors, delays =>
    match step attempt s with
    | (s1, .ok a) => ⟨.ok a, attempt, delays, errors, s1⟩
    | (s1, .error e) =>
      let s2 := onFail e s1
      match timeouts with
      | [] =>
        ⟨.error ((mainError (errors ++ [e])).getD e), attempt, delays,
          errors ++ [e], s2⟩
      | t :: rest =>
        runRetryAux step onFail rest (attempt + 1) s2 (errors ++ [e])
          (delays ++ [t])

/-- `operation.attempt(fn)`: the attempt counter starts at 1 and the first
attempt executes immediately, with no prior errors or waits. -/
def runRetry (p : RetryPolicy) (step : Nat → σ → σ × Except JsError α)
    (onFail : JsError → σ → σ) (s : σ) : RunResult σ α :=
  runRetryAux step onFail (retryTimeouts p) 1 s [] []

/-! ## Database layer (src/config/database.js) -/

/-- The module-level pool state of database.js: `let pool = null`. The mysql
pool object is opaque; handles are numbered by construction generation so that
identity and reconstruction are observable in the model. -/
structure DbState where
  pool : Option Nat
  nextId : Nat
  deriving DecidableEq, Repr

/-- `createPool` (database.js 22-48): when the handle is absent, construct a
new pool from the static `dbConfig` (a fresh generation in the model) and
register its "connection"/"error" event listeners; when a handle is live,
return it untouched. The body performs no connection acquisition and issues
no statement. -/
def createPool (s : DbState) : Nat × DbState :=
  match s.pool with
  | some p => (p, s)
  | none => (s.nextId, { pool := some s.nextId, nextId := s.nextId + 1 })

/-- Observable connection-pool operations inside one query attempt. -/
inductive ConnEvent
  | acquire
  | release
  deriving DecidableEq, BEq, Repr

/-- The connection-level operations (acquire / release / verification
statement) performed inside `createPool` itself: its body (database.js 22-48)
only calls `mysql.createPool(dbConfig)` and attaches event listeners, so the
trace is empty — the verification `SELECT 1` runs separately, inside
`testConnection` (database.js 98-127). -/
def createPoolProbeEvents (_s : DbState) : List ConnEvent := []

/-- The error codes on which database.js 81-87 forces pool recreation:
connection lost, timed out, refused. -/
def isConnectionError (e : JsError) : Bool :=
  e.code == some "PROTOCOL_CONNECTION_LOST" || e.code == some "ETIMEDOUT" ||
    e.code == some "ECONNREFUSED"

/-- The pool write performed by database.js 80-87 when a query attempt fails,
before `operation.retry(error)` is consulted: `pool = null` exactly on the
three connection-class codes; any other error leaves the pool untouched. -/
def poolAfterFailure (e : JsError) (s : DbState) : DbState :=
  if isConnectionError e then { s with pool := none } else s

/-- The retry policy hard-coded in `query` (database.js 51-56). -/
def dbPolicy : RetryPolicy := ⟨3, 2, 2000, 10000⟩

/-- One attempt of `query` (database.js 60-72): first `createPool()` runs
against the current module state, then the attempt body executes;
`behavior attempt` is the environment's outcome of
`getConnection()` + `connection.query(sql, params)` on that attempt. -/
def dbStep (behavior : Nat → Except JsError α) :
    Nat → DbState → DbState × Except JsError α :=
  fun attempt s => ((createPool s).2, behavior attempt)

/-- One execution of `query(sql, params)` (database.js 50-96) from pool state
`s`, with the environment answering attempt `n` by `behavior n`. -/
def queryRun (behavior : Nat → Except JsError α) (s : DbState) :
    RunResult DbState α :=
  runRetry dbPolicy (dbStep behavior) poolAfterFailure s

/-- The attempt body of `query` at connection granularity (database.js 62-72):
`getConnection` itself may reject (no connection is then held); once a
connection is acquired, it is released on the success path (before `resolve`)
and on the failure path (before the query error is rethrown to the retry
logic). Returns the event trace and the attempt outcome. -/
def attemptConnEvents (getConn : Except JsError Unit)
    (q : Except JsError α) : List ConnEvent × Except JsError α :=
  match getConn with
  | .error e => ([], .error e)
  | .ok _ =>
    match q with
    | .ok r => ([.acquire, .release], .ok r)
    | .error e => ([.acquire, .release], .error e)

/-! ## Email layer (EmailService in src/app.js) -/

/-- The retry policy of `EmailService.initialize` (app.js 200-205). -/
def emailInitPolicy : RetryPolicy := ⟨5, 2, 2000, 60000⟩

/-- The retry policy of `EmailService.sendMail` (app.js 267-272), with
`EMAIL_RETRY_ATTEMPTS` / `EMAIL_RETRY_DELAY` unset so that
`parseInt(...) || 3` and `parseInt(...) || 5000` take their defaults. -/
def emailSendPolicy : RetryPolicy := ⟨3, 2, 5000, 30000⟩

/-- One attempt of `EmailService.initialize` (app.js 208-241): the attempt
first assigns a freshly constructed transporter to `this.transporter`
(`nodemailer.createTransport(...)`, a fresh generation in the model) and only
then awaits `this.transporter.verify()`; on success it resolves with
`this.transporter`. The state is (next fresh generation, `this.transporter`);
`verify attempt` is the environment's outcome of the handshake on that
attempt. -/
def initStep (verify : Nat → Except JsError Unit) :
    Nat → Nat × Option Nat → (Nat × Option Nat) × Except JsError Nat :=
  fun attempt s => ((s.1 + 1, some s.1), (verify attempt).map (fun _ => s.1))

/-- One execution of `EmailService.initialize` (app.js 199-243) starting from
transporter field `transporter` and fresh-generation counter `nextId`. The
failure hook is the identity: initialize classifies nothing and mutates no
other state before `operation.retry`. -/
def initializeRun (verify : Nat → Except JsError Unit) (nextId : Nat)
    (transporter : Option Nat) : RunResult (Nat × Option Nat) Nat :=
  runRetry emailInitPolicy (initStep verify) (fun _ s => s)
    (nextId, transporter)

/-- An email payload/options object as passed around app.js; a field holds
`none` when the JS value is absent or otherwise falsy. `to` and `from` are Lean
keywords, so those fields are named `toField` and `fromField`. -/
structure MailPayload where
  toField : Option String := none
  subject : Option String := none
  text : Option String := none
  html : Option String := none
  fromField : Option String := none
  template : Option String := none
  attachments : List String := []
  cc : Option String := none
  bcc : Option String := none
  replyTo : Option String := none
  deriving DecidableEq, Repr

/-- The dynamic field access `options[field]` used by
`validateEmailOptions`' `requiredFields.filter` (only ever applied to the
names in `requiredFields = ["to", "subject"]`). -/
def mailField (o : MailPayload) : String → Option String
  | "to" => o.toField
  | "subject" => o.subject
  | _ => none

/-- `EmailService.validateEmailOptions` (app.js 320-333): throw when a
required field (`to`, `subject`) is falsy, naming the missing fields; then
throw when neither `text` nor `html` is provided; otherwise return. The
thrown values are plain `new Error(msg)`, carrying no code. -/
def validateEmailOptions (o : MailPayload) : Except JsError Unit :=
  let requiredFields := ["to", "subject"]
  let missingFields := requiredFields.filter (fun f => (mailField o f).isNone)
  if missingFields ≠ [] then
    .error ⟨none, "Missing required email fields: "
      ++ String.intercalate ", " missingFields⟩
  else if o.text.isNone && o.html.isNone then
    .error ⟨none, "Either text or html content must be provided"⟩
  else
    .ok ()

/-- `EmailService.createMailOptions` (app.js 292-317): assemble the options
object (`html: template || html`; `cc`/`bcc`/`replyTo` spread only when
truthy, which Option already captures) and validate it before returning it.
The validation error, if any, is thrown synchronously — no transport is
touched here. -/
def createMailOptions (p : MailPayload) : Except JsError MailPayload :=
  let options : MailPayload :=
    { toField := p.toField, subject := p.subject, text := p.text,
      html := p.template.or p.html, attachments := p.attachments,
      cc := p.cc, bcc := p.bcc, replyTo := p.replyTo }
  match validateEmailOptions options with
  | .error e => .error e
  | .ok _ => .ok options

/-- The default sender string interpolated in sendMail (app.js 253-255):
`"EMAIL_FROM_NAME" <EMAIL_FROM_ADDRESS>` with the two environment values;
the model keeps the template literally since no claim inspects it. -/
def defaultFrom : String := "\x22EMAIL_FROM_NAME\x22 <EMAIL_FROM_ADDRESS>"

/-- The `mailOptions` object built by `sendMail` (app.js 251-265): the
caller's options spread unchanged — with no validation of any kind — and
`from` defaulted when falsy. The fixed tracking headers and the Message-ID
are not modeled; no claim observes them. -/
def buildMailOptions (p : MailPayload) : MailPayload :=
  { p with fromField := p.fromField.or (some defaultFrom) }

/-- The transport retry loop of `sendMail` (app.js 267-288): retried under
`emailSendPolicy` with no failure classification and no extra state;
`send attempt` is the environment's outcome of
`this.transporter.sendMail(mailOptions)` on that attempt, resolving with the
result (carrying `messageId`). -/
def sendLoop (send : Nat → Except JsError String) : RunResult Unit String :=
  runRetry emailSendPolicy (fun attempt s => (s, send attempt)) (fun _ s => s) ()

/-- The observable outcome of one `sendMail` call: the value resolved or the
error rejected, how many initialize attempts and transport send attempts ran,
the delays of the send loop, the final `this.transporter` field, and the
`mailOptions` actually handed to the transport loop (`none` when the send
loop never ran). -/
structure SendMailRun where
  result : Except JsError String
  initAttempts : Nat
  sendAttempts : Nat
  sendDelays : List Nat
  transporter : Option Nat
  mailOptions : Option MailPayload
  deriving DecidableEq, Repr

/-- `EmailService.sendMail(options)` (app.js 246-289): when
`this.transporter` is falsy the full `initialize()` sequence runs first and
its rejection propagates to the caller with no transport attempt; otherwise
(and after successful initialization) `mailOptions` is built — without any
call to `validateEmailOptions` — and the transport send is retried under
`emailSendPolicy`. -/
def sendMailRun (transporter : Option Nat) (nextId : Nat)
    (verify : Nat → Except JsError Unit) (send : Nat → Except JsError String)
    (options : MailPayload) : SendMailRun :=
  match transporter with
  | none =>
    let ir := initializeRun verify nextId none
    match ir.result with
    | .error e =>
      { result := .error e, initAttempts := ir.attempts, sendAttempts := 0,
        sendDelays := [], transporter := ir.state.2, mailOptions := none }
    | .ok tid =>
      let mo := buildMailOptions options
      let sr := sendLoop send
      { result := sr.result, initAttempts := ir.attempts,
        sendAttempts := sr.attempts, sendDelays := sr.delays,
        transporter := some tid, mailOptions := some mo }
  | some tid =>
    let mo := buildMailOptions options
    let sr := sendLoop send
    { result := sr.result, initAttempts := 0, sendAttempts := sr.attempts,
      sendDelays := sr.delays, transporter := some tid,
      mailOptions := some mo }

/-! ## The spec's claimed delay formula (for comparison with the code) -/

/-- Stated from the spec's words (§4.2 and §8): the delay the spec claims is
waited before executing attempt `n` (1-indexed, attempt 1 immediate):
`min(maxTimeout, minTimeout * factor^(n-1))`. This is the spec-side
definition of the refinement comparison for the backoff schedule; the
code-side schedule is `retryTimeouts`. -/
def specClaimedDelay (p : RetryPolicy) (n : Nat) : Nat :=
  min p.maxTimeout (p.minTimeout * p.factor ^ (n - 1))

/-! ## Helper lemmas about the retry driver -/

theorem mainErrorLoop_replicate (e : JsError) :
    ∀ (k : Nat) (counts : String → Nat) (bestCount : Nat),
      bestCount ≤ counts e.message →
      mainErrorLoop (List.replicate k e) counts (some e) bestCount = some e := by
  intro k
  induction k with
  | zero => intro counts bestCount _; rfl
  | succ k ih =>
    intro counts bestCount hbc
    rw [List.replicate_succ, mainErrorLoop]
    rw [if_pos (by omega)]
    exact ih _ _ (by simp)

/-- When every recorded error is the same error `e`, `operation.mainError()`
returns `e`. -/
theorem mainError_replicate (e : JsError) (k : Nat) :
    mainError (List.replicate (k + 1) e) = some e := by
  rw [mainError, List.replicate_succ, mainErrorLoop]
  rw [if_pos (by omega)]
  exact mainErrorLoop_replicate e k _ _ (by simp)

theorem runRetryAux_attempts {σ α : Type}
    (step : Nat → σ → σ × Except JsError α) (onFail : JsError → σ → σ) :
    ∀ (timeouts : List Nat) (attempt : Nat) (s : σ) (errors : List JsError)
      (delays : List Nat),
      attempt ≤ (runRetryAux step onFail timeouts attempt s errors delays).attempts ∧
      (runRetryAux step onFail timeouts attempt s errors delays).attempts
        ≤ attempt + timeouts.length := by
  intro timeouts
  induction timeouts with
  | nil =>
    intro attempt s errors delays
    rw [runRetryAux]
    rcases h : step attempt s with ⟨s1, r⟩
    cases r <;> simp
  | cons t rest ih =>
    intro attempt s errors delays
    rw [runRetryAux]
    rcases h : step attempt s with ⟨s1, r⟩
    cases r with
    | ok a => simp
    | error e =>
      have := ih (attempt + 1) (onFail e s1) (errors ++ [e]) (delays ++ [t])
      simp only [List.length_cons]
      constructor
      · omega
      · omega

theorem runRetryAux_delays {σ α : Type}
    (step : Nat → σ → σ × Except JsError α) (onFail : JsError → σ → σ) :
    ∀ (timeouts : List Nat) (attempt : Nat) (s : σ) (errors : List JsError)
      (delays : List Nat),
      (runRetryAux step onFail timeouts attempt s errors delays).delays
        = delays ++ List.take
            ((runRetryAux step onFail timeouts attempt s errors delays).attempts
              - attempt) timeouts := by
  intro timeouts
  induction timeouts with
  | nil =>
    intro attempt s errors delays
    rw [runRetryAux]
    rcases h : step attempt s with ⟨s1, r⟩
    cases r <;> simp
  | cons t rest ih =>
    intro attempt s errors delays
    rw [runRetryAux]
    rcases h : step attempt s with ⟨s1, r⟩
    cases r with
    | ok a => simp
    | error e =>
      have hd := ih (attempt + 1) (onFail e s1) (errors ++ [e]) (delays ++ [t])
      have ha := (runRetryAux_attempts step onFail rest (attempt + 1)
        (onFail e s1) (errors ++ [e]) (delays ++ [t])).1
      simp only []
      rw [hd]
      have hsub : (runRetryAux step onFail rest (attempt + 1) (onFail e s1)
          (errors ++ [e]) (delays ++ [t])).attempts - attempt
          = ((runRetryAux step onFail rest (attempt + 1) (onFail e s1)
              (errors ++ [e]) (delays ++ [t])).attempts - (attempt + 1)) + 1 := by
        omega
      rw [hsub, List.take_succ_cons, List.append_assoc, List.singleton_append]

theorem runRetryAux_constFail {σ α : Type}
    (step : Nat → σ → σ × Except JsError α) (onFail : JsError → σ → σ)
    (e : JsError) (hstep : ∀ n s, (step n s).2 = .error e) :
    ∀ (timeouts : List Nat) (attempt : Nat) (s : σ) (k : Nat)
      (delays : List Nat),
      (runRetryAux step onFail timeouts attempt s (List.replicate k e)
        delays).result = .error e ∧
      (runRetryAux step onFail timeouts attempt s (List.replicate k e)
        delays).attempts = attempt + timeouts.length := by
  intro timeouts
  induction timeouts with
  | nil =>
    intro attempt s k delays
    rw [runRetryAux]
    rcases h : step attempt s with ⟨s1, r⟩
    have hr : r = .error e := by rw [← hstep attempt s, h]
    subst hr
    dsimp only
    rw [← List.replicate_succ']
    simp [mainError_replicate]
  | cons t rest ih =>
    intro attempt s k delays
    rw [runRetryAux]
    rcases h : step attempt s with ⟨s1, r⟩
    have hr : r = .error e := by rw [← hstep attempt s, h]
    subst hr
    have := ih (attempt + 1) (onFail e s1) (k + 1) (delays ++ [t])
    rw [List.replicate_succ'] at this
    simp only [List.length_cons]
    refine ⟨this.1, ?_⟩
    rw [this.2]
    omega

theorem runRetryAux_first_success {σ α : Type}
    (step : Nat → σ → σ × Except JsError α) (onFail : JsError → σ → σ)
    (behavior : Nat → Except JsError α)
    (hout : ∀ n s, (step n s).2 = behavior n) (n : Nat) (a : α)
    (hn : behavior n = .ok a) :
    ∀ (timeouts : List Nat) (attempt : Nat) (s : σ) (errors : List JsError)
      (delays : List Nat),
      attempt ≤ n → n ≤ attempt + timeouts.length →
      (∀ k, attempt ≤ k → k < n → ∃ err, behavior k = .error err) →
      (runRetryAux step onFail timeouts attempt s errors delays).result
        = .ok a ∧
      (runRetryAux step onFail timeouts attempt s errors delays).attempts
        = n := by
  intro timeouts
  induction timeouts with
  | nil =>
    intro attempt s errors delays h1 h2 _
    have hAttempt : attempt = n := by simpa using Nat.le_antisymm h1 (by simpa using h2)
    subst hAttempt
    rw [runRetryAux]
    rcases h : step attempt s with ⟨s1, r⟩
    have hr : r = .ok a := by rw [← hn, ← hout attempt s, h]
    subst hr
    simp
  | cons t rest ih =>
    intro attempt s errors delays h1 h2 hfail
    rw [runRetryAux]
    rcases h : step attempt s with ⟨s1, r⟩
    by_cases hcase : attempt = n
    · subst hcase
      have hr : r = .ok a := by rw [← hn, ← hout attempt s, h]
      subst hr
      simp
    · have hlt : attempt < n := lt_of_le_of_ne h1 hcase
      obtain ⟨err, herr⟩ := hfail attempt le_rfl hlt
      have hr : r = .error err := by rw [← herr, ← hout attempt s, h]
      subst hr
      exact ih (attempt + 1) (onFail err s1) (errors ++ [err]) (delays ++ [t])
        hlt (by simp at h2 ⊢; omega)
        (fun k hk1 hk2 => hfail k (by omega) hk2)

/-- With `factor ≥ 1` the generated timeout list is already ascending, so the
sort in `retry.timeouts` is the identity and timeout `i` (0-indexed) is
`createTimeout i`. -/
theorem retryTimeouts_eq_map (p : RetryPolicy) (hf : 1 ≤ p.factor) :
    retryTimeouts p
      = (List.range p.retries).map (fun i => createTimeout i p) := by
  unfold retryTimeouts
  apply List.Sorted.insertionSort_eq
  refine List.Pairwise.map _ ?_ (List.pairwise_lt_range p.retries)
  intro i j hij
  unfold createTimeout
  exact min_le_min
    (Nat.mul_le_mul le_rfl (Nat.pow_le_pow_right hf (le_of_lt hij))) le_rfl

theorem retryTimeouts_length (p : RetryPolicy) :
    (retryTimeouts p).length = p.retries := by
  unfold retryTimeouts
  rw [List.length_insertionSort]
  simp

/-! ## Helper lemmas about the database pool -/

theorem createPool_pool (s : DbState) :
    (createPool s).2.pool = some (createPool s).1 := by
  rcases s with ⟨pool?, nextId⟩
  cases pool? <;> rfl

theorem createPool_idem (s : DbState) :
    createPool (createPool s).2 = ((createPool s).1, (createPool s).2) := by
  rcases s with ⟨pool?, nextId⟩
  cases pool? <;> rfl

/-- When every attempt fails with an error that is not connection-class, the
query loop never invalidates the pool: the final module state is exactly the
state right after the first `createPool()`. -/
theorem queryAux_constFail_state {α : Type} (e : JsError)
    (he : isConnectionError e = false) :
    ∀ (timeouts : List Nat) (attempt : Nat) (s : DbState)
      (errors : List JsError) (delays : List Nat),
      (runRetryAux (dbStep (fun _ => (.error e : Except JsError α)))
        poolAfterFailure timeouts attempt s errors delays).state
        = (createPool s).2 := by
  intro timeouts
  induction timeouts with
  | nil =>
    intro attempt s errors delays
    rw [runRetryAux]
    dsimp only [dbStep]
    simp [poolAfterFailure, he]
  | cons t rest ih =>
    intro attempt s errors delays
    rw [runRetryAux]
    dsimp only [dbStep]
    simp only [poolAfterFailure, he, Bool.false_eq_true, if_false]
    rw [ih]
    rw [createPool_idem]

/-! ## Helper lemmas about EmailService.initialize -/

/-- Every initialize attempt assigns the freshly constructed transporter
before verifying it, so when verification fails on every attempt the
transporter field ends up holding the last (never verified) transporter. -/
theorem initializeAux_constFail_state (e : JsError) :
    ∀ (timeouts : List Nat) (attempt : Nat) (s : Nat × Option Nat)
      (errors : List JsError) (delays : List Nat),
      (runRetryAux (initStep (fun _ => .error e)) (fun _ st => st)
        timeouts attempt s errors delays).state
        = (s.1 + timeouts.length + 1, some (s.1 + timeouts.length)) := by
  intro timeouts
  induction timeouts with
  | nil =>
    intro attempt s errors delays
    rw [runRetryAux]
    rfl
  | cons t rest ih =>
    intro attempt s errors delays
    rw [runRetryAux]
    dsimp only [initStep, Except.map]
    rw [ih]
    simp only [List.length_cons, Prod.mk.injEq, Option.some.injEq]
    omega

/-- When initialize resolves, the resolved transporter is exactly the one
stored in `this.transporter`, and some verification attempt succeeded. -/
theorem initializeAux_ok (verify : Nat → Except JsError Unit) :
    ∀ (timeouts : List Nat) (attempt : Nat) (s : Nat × Option Nat)
      (errors : List JsError) (delays : List Nat) (tid : Nat),
      (runRetryAux (initStep verify) (fun _ st => st) timeouts attempt s
        errors delays).result = .ok tid →
      (runRetryAux (initStep verify) (fun _ st => st) timeouts attempt s
        errors delays).state.2 = some tid ∧ ∃ n, verify n = .ok () := by
  intro timeouts
  induction timeouts with
  | nil =>
    intro attempt s errors delays tid hres
    rw [runRetryAux] at hres ⊢
    dsimp only [initStep] at hres ⊢
    cases hv : verify attempt with
    | error err =>
      rw [hv] at hres
      dsimp only [Except.map] at hres
      simp at hres
    | ok u =>
      cases u
      rw [hv] at hres
      dsimp only [Except.map] at hres ⊢
      have htid : s.1 = tid := by simpa using hres
      exact ⟨by simp [htid], ⟨attempt, hv⟩⟩
  | cons t rest ih =>
    intro attempt s errors delays tid hres
    rw [runRetryAux] at hres ⊢
    dsimp only [initStep] at hres ⊢
    cases hv : verify attempt with
    | error err =>
      rw [hv] at hres
      dsimp only [Except.map] at hres ⊢
      exact ih (attempt + 1) (s.1 + 1, some s.1) (errors ++ [err])
        (delays ++ [t]) tid hres
    | ok u =>
      cases u
      rw [hv] at hres
      dsimp only [Except.map] at hres ⊢
      have htid : s.1 = tid := by simpa using hres
      exact ⟨by simp [htid], ⟨attempt, hv⟩⟩

/-! ## Claims -/

/-- C1, counterexample: a query syntax error (`ER_PARSE_ERROR`, a fatal class
per the spec) injected on attempt 1 and persisting does NOT surface
immediately: `query` makes 4 attempts (not 1), waiting the full backoff
schedule, because database.js passes every error to `operation.retry` with no
fatal classification. -/
theorem c1_fatal_error_counterexample :
    (queryRun (fun _ => (.error ⟨some "ER_PARSE_ERROR",
        "You have an error in your SQL syntax"⟩ : Except JsError Nat))
      ⟨none, 0⟩).attempts = 4 ∧
    (queryRun (fun _ => (.error ⟨some "ER_PARSE_ERROR",
        "You have an error in your SQL syntax"⟩ : Except JsError Nat))
      ⟨none, 0⟩).attempts ≠ 1 ∧
    (queryRun (fun _ => (.error ⟨some "ER_PARSE_ERROR",
        "You have an error in your SQL syntax"⟩ : Except JsError Nat))
      ⟨none, 0⟩).delays = [2000, 4000, 8000] := by decide

/-- C1 (amended): a query syntax / constraint-violation error is treated like
any other non-connection-class error: the engine retries it with backoff
(retries+1 = 4 attempts total when it persists) and then surfaces it
unchanged; the pool handle is never invalidated on its account — the final
module state is exactly the state after the first `createPool()`, with the
pool still live. -/
theorem c1_fatal_error_amended {α : Type} (e : JsError)
    (he : isConnectionError e = false) (s : DbState) :
    (queryRun (fun _ => (.error e : Except JsError α)) s).attempts
      = dbPolicy.retries + 1 ∧
    (queryRun (fun _ => (.error e : Except JsError α)) s).result = .error e ∧
    (queryRun (fun _ => (.error e : Except JsError α)) s).state
      = (createPool s).2 ∧
    (queryRun (fun _ => (.error e : Except JsError α)) s).state.pool
      = some (createPool s).1 := by
  have hcf := runRetryAux_constFail (dbStep (fun _ => (.error e : Except JsError α)))
    poolAfterFailure e (fun _ _ => rfl) (retryTimeouts dbPolicy) 1 s 0 []
  rw [List.replicate_zero] at hcf
  have hst := queryAux_constFail_state (α := α) e he (retryTimeouts dbPolicy) 1 s [] []
  unfold queryRun runRetry
  refine ⟨?_, hcf.1, hst, ?_⟩
  · rw [hcf.2, retryTimeouts_length, Nat.add_comm]
  · rw [hst, createPool_pool]

theorem c1_fatal_error_amended_witness :
    isConnectionError ⟨some "ER_DUP_ENTRY", "Duplicate entry"⟩ = false ∧
    ((queryRun (fun _ => (.error ⟨some "ER_DUP_ENTRY", "Duplicate entry"⟩ :
          Except JsError Nat)) ⟨none, 0⟩).attempts = dbPolicy.retries + 1 ∧
      (queryRun (fun _ => (.error ⟨some "ER_DUP_ENTRY", "Duplicate entry"⟩ :
          Except JsError Nat)) ⟨none, 0⟩).result
        = .error ⟨some "ER_DUP_ENTRY", "Duplicate entry"⟩ ∧
      (queryRun (fun _ => (.error ⟨some "ER_DUP_ENTRY", "Duplicate entry"⟩ :
          Except JsError Nat)) ⟨none, 0⟩).state
        = (createPool ⟨none, 0⟩).2 ∧
      (queryRun (fun _ => (.error ⟨some "ER_DUP_ENTRY", "Duplicate entry"⟩ :
          Except JsError Nat)) ⟨none, 0⟩).state.pool
        = some (createPool ⟨none, 0⟩).1) :=
  ⟨by decide, c1_fatal_error_amended ⟨some "ER_DUP_ENTRY", "Duplicate entry"⟩
    (by decide) ⟨none, 0⟩⟩

/-- C2, counterexample: with the database policy (minTimeout 2000, factor 2,
maxTimeout 10000) the wait before attempt 2 is 2000 ms, but the claim's
formula `min(maxTimeout, minTimeout * factor^(n-1))` gives 4000 ms for n = 2:
the code's exponent is n-2, not n-1. -/
theorem c2_backoff_counterexample :
    (queryRun (fun _ => (.error ⟨some "ETIMEDOUT", "connect ETIMEDOUT"⟩ :
        Except JsError Nat)) ⟨none, 0⟩).delays = [2000, 4000, 8000] ∧
    specClaimedDelay dbPolicy 2 = 4000 ∧
    (queryRun (fun _ => (.error ⟨some "ETIMEDOUT", "connect ETIMEDOUT"⟩ :
        Except JsError Nat)) ⟨none, 0⟩).delays[0]?
      ≠ some (specClaimedDelay dbPolicy 2) := by decide

/-- C2 (amended): attempt 1 executes immediately — there is exactly one
recorded delay per attempt after the first — and for every attempt n with
2 ≤ n ≤ attempts, the delay waited before executing attempt n equals
`min(maxTimeout, max(minTimeout,1) * factor^(n-2))` (for any retried
operation whose policy has factor ≥ 1, as all three call sites do). -/
theorem c2_backoff_amended {σ α : Type} (p : RetryPolicy) (hf : 1 ≤ p.factor)
    (step : Nat → σ → σ × Except JsError α) (onFail : JsError → σ → σ)
    (s : σ) (n : Nat) (h2 : 2 ≤ n)
    (hn : n ≤ (runRetry p step onFail s).attempts) :
    (runRetry p step onFail s).delays.length
      = (runRetry p step onFail s).attempts - 1 ∧
    (runRetry p step onFail s).delays[n - 2]?
      = some (min (max p.minTimeout 1 * p.factor ^ (n - 2)) p.maxTimeout) := by
  have hd := runRetryAux_delays step onFail (retryTimeouts p) 1 s [] []
  have hb := runRetryAux_attempts step onFail (retryTimeouts p) 1 s [] []
  have hlen := retryTimeouts_length p
  rw [List.nil_append] at hd
  unfold runRetry at hn ⊢
  constructor
  · rw [hd, List.length_take]
    have hle : (runRetryAux step onFail (retryTimeouts p) 1 s [] []).attempts - 1
        ≤ (retryTimeouts p).length := by omega
    rw [min_eq_left hle]
  · rw [hd, List.getElem?_take, if_pos (by omega)]
    rw [retryTimeouts_eq_map p hf, List.getElem?_map,
      List.getElem?_range (show n - 2 < p.retries by omega)]
    rfl

theorem c2_backoff_amended_witness :
    1 ≤ dbPolicy.factor ∧ 2 ≤ 3 ∧
    3 ≤ (runRetry dbPolicy (dbStep (fun _ => (.error ⟨some "ETIMEDOUT",
        "connect ETIMEDOUT"⟩ : Except JsError Nat))) poolAfterFailure
        (⟨none, 0⟩ : DbState)).attempts ∧
    ((runRetry dbPolicy (dbStep (fun _ => (.error ⟨some "ETIMEDOUT",
        "connect ETIMEDOUT"⟩ : Except JsError Nat))) poolAfterFailure
        (⟨none, 0⟩ : DbState)).delays.length
      = (runRetry dbPolicy (dbStep (fun _ => (.error ⟨some "ETIMEDOUT",
        "connect ETIMEDOUT"⟩ : Except JsError Nat))) poolAfterFailure
        (⟨none, 0⟩ : DbState)).attempts - 1 ∧
    (runRetry dbPolicy (dbStep (fun _ => (.error ⟨some "ETIMEDOUT",
        "connect ETIMEDOUT"⟩ : Except JsError Nat))) poolAfterFailure
        (⟨none, 0⟩ : DbState)).delays[3 - 2]?
      = some (min (max dbPolicy.minTimeout 1 * dbPolicy.factor ^ (3 - 2))
          dbPolicy.maxTimeout)) :=
  ⟨by decide, by decide, by decide,
    c2_backoff_amended dbPolicy (by decide)
      (dbStep (fun _ => (.error ⟨some "ETIMEDOUT", "connect ETIMEDOUT"⟩ :
        Except JsError Nat))) poolAfterFailure ⟨none, 0⟩ 3 (by decide)
      (by decide)⟩

/-- Attempt outcomes in which one message repeats before two later distinct
messages: the errors of attempts 1 and 2 share a message, attempts 3 and 4
carry fresh ones. -/
def mixedErrorBehavior : Nat → Except JsError Nat := fun n =>
  .error (if n ≤ 2 then ⟨none, "read ECONNRESET"⟩
    else if n = 3 then ⟨none, "Connection lost"⟩
    else ⟨none, "Query inactivity timeout"⟩)

/-- C3, counterexample: when the four attempt errors have messages
[ECONNRESET, ECONNRESET, Connection lost, Query inactivity timeout], the
terminal error delivered by `operation.mainError()` is the repeated
ECONNRESET error — not the error of the last attempt. -/
theorem c3_terminal_error_counterexample :
    (queryRun mixedErrorBehavior ⟨none, 0⟩).errors
      = [⟨none, "read ECONNRESET"⟩, ⟨none, "read ECONNRESET"⟩,
          ⟨none, "Connection lost"⟩, ⟨none, "Query inactivity timeout"⟩] ∧
    (queryRun mixedErrorBehavior ⟨none, 0⟩).result
      = .error ⟨none, "read ECONNRESET"⟩ ∧
    (queryRun mixedErrorBehavior ⟨none, 0⟩).errors.getLast?
      = some ⟨none, "Query inactivity timeout"⟩ ∧
    (⟨none, "read ECONNRESET"⟩ : JsError)
      ≠ ⟨none, "Query inactivity timeout"⟩ := by decide

/-- C3 (amended): on exhaustion the terminal error is `operation.mainError()`
— the attempt error whose message occurred most often, ties to the latest —
surfaced unchanged, which is the last attempt's error only when no earlier
message dominates; in particular, when every attempt fails with the same
error e, the caller receives exactly e (kind, message and code preserved)
after retries+1 attempts. -/
theorem c3_terminal_error_amended {σ α : Type} (p : RetryPolicy)
    (step : Nat → σ → σ × Except JsError α) (onFail : JsError → σ → σ)
    (s : σ) (e : JsError) (hstep : ∀ n st, (step n st).2 = .error e) :
    (runRetry p step onFail s).result = .error e ∧
    (runRetry p step onFail s).attempts = p.retries + 1 := by
  have hcf := runRetryAux_constFail step onFail e hstep (retryTimeouts p) 1 s 0 []
  rw [List.replicate_zero] at hcf
  unfold runRetry
  exact ⟨hcf.1, by rw [hcf.2, retryTimeouts_length, Nat.add_comm]⟩

theorem c3_terminal_error_amended_witness :
    (∀ (n : Nat) (st : Unit),
      ((fun (_ : Nat) (st : Unit) =>
        (st, (.error ⟨none, "Greeting never received"⟩ :
          Except JsError String))) n st).2
        = .error ⟨none, "Greeting never received"⟩) ∧
    ((runRetry emailSendPolicy
        (fun _ st => (st, (.error ⟨none, "Greeting never received"⟩ :
          Except JsError String)))
        (fun _ st => st) ()).result
      = .error ⟨none, "Greeting never received"⟩ ∧
    (runRetry emailSendPolicy
        (fun _ st => (st, (.error ⟨none, "Greeting never received"⟩ :
          Except JsError String)))
        (fun _ st => st) ()).attempts = emailSendPolicy.retries + 1) :=
  ⟨fun _ _ => rfl,
    c3_terminal_error_amended emailSendPolicy
      (fun _ st => (st, (.error ⟨none, "Greeting never received"⟩ :
        Except JsError String)))
      (fun _ st => st) () ⟨none, "Greeting never received"⟩
      (fun _ _ => rfl)⟩

/-- C4 (confirmed): on a failed query attempt the pool handle is set to
absent exactly when the error's code is connection-class (connection lost /
timed out / refused); on any other code the module state is completely
unchanged by the classifier — and either way, when a timeout remains the
attempt is retried (the run proceeds past the current attempt). -/
theorem c4_pool_invalidation {α : Type} (e : JsError) (s : DbState) :
    (isConnectionError e = true → (poolAfterFailure e s).pool = none) ∧
    (isConnectionError e = false → poolAfterFailure e s = s) ∧
    (∀ (behavior : Nat → Except JsError α) (t : Nat) (rest : List Nat)
        (attempt : Nat) (errors : List JsError) (delays : List Nat),
        behavior attempt = .error e →
        attempt + 1 ≤ (runRetryAux (dbStep behavior) poolAfterFailure
          (t :: rest) attempt s errors delays).attempts) := by
  refine ⟨?_, ?_, ?_⟩
  · intro h; simp [poolAfterFailure, h]
  · intro h; simp [poolAfterFailure, h]
  · intro behavior t rest attempt errors delays hb
    rw [runRetryAux]
    dsimp only [dbStep]
    rw [hb]
    exact (runRetryAux_attempts (dbStep behavior) poolAfterFailure rest
      (attempt + 1) (poolAfterFailure e (createPool s).2) (errors ++ [e])
      (delays ++ [t])).1

theorem c4_pool_invalidation_witness :
    isConnectionError ⟨some "ECONNREFUSED", "connect ECONNREFUSED"⟩ = true ∧
    (poolAfterFailure ⟨some "ECONNREFUSED", "connect ECONNREFUSED"⟩
      ⟨some 3, 4⟩).pool = none ∧
    isConnectionError ⟨some "ER_DUP_ENTRY", "Duplicate entry"⟩ = false ∧
    poolAfterFailure ⟨some "ER_DUP_ENTRY", "Duplicate entry"⟩ ⟨some 3, 4⟩
      = ⟨some 3, 4⟩ ∧
    1 + 1 ≤ (runRetryAux
      (dbStep (fun _ => (.error ⟨some "ER_DUP_ENTRY", "Duplicate entry"⟩ :
        Except JsError Nat))) poolAfterFailure (2000 :: [4000, 8000]) 1
      ⟨some 3, 4⟩ [] []).attempts :=
  ⟨by decide,
    (c4_pool_invalidation (α := Nat)
      ⟨some "ECONNREFUSED", "connect ECONNREFUSED"⟩ ⟨some 3, 4⟩).1 (by decide),
    by decide,
    (c4_pool_invalidation (α := Nat)
      ⟨some "ER_DUP_ENTRY", "Duplicate entry"⟩ ⟨some 3, 4⟩).2.1 (by decide),
    (c4_pool_invalidation ⟨some "ER_DUP_ENTRY", "Duplicate entry"⟩
      ⟨some 3, 4⟩).2.2
      (fun _ => (.error ⟨some "ER_DUP_ENTRY", "Duplicate entry"⟩ :
        Except JsError Nat)) 2000 [4000, 8000] 1 [] [] rfl⟩

/-- C5, counterexample: `sendMail` called directly (as the registration route
does) with a payload missing `subject` performs NO validation: with a live
transporter it issues a transport attempt (one here, which succeeds) instead
of failing with a validation error and zero attempts. -/
theorem c5_validation_counterexample :
    ({ toField := some "user@example.com", text := some "hello" } :
      MailPayload).subject = none ∧
    (sendMailRun (some 0) 1 (fun _ => .ok ()) (fun _ => .ok "msg-1")
      { toField := some "user@example.com", text := some "hello" }).sendAttempts
      = 1 ∧
    (sendMailRun (some 0) 1 (fun _ => .ok ()) (fun _ => .ok "msg-1")
      { toField := some "user@example.com", text := some "hello" }).result
      = .ok "msg-1" ∧
    (1 : Nat) ≠ 0 := by decide

/-- C5 (amended): required-field validation lives in `createMailOptions`, not
in `sendMail`: for every payload missing `subject`, `createMailOptions` fails
synchronously with a validation error (message prefixed "Missing required
email fields") and touches no transport, while `sendMail` itself performs no
validation and issues at least one transport attempt for the same payload
whenever a transporter is live. -/
theorem c5_validation_amended (p : MailPayload) (h : p.subject = none) :
    (∃ e missing, createMailOptions p = .error e ∧
      e.message = "Missing required email fields: " ++ missing) ∧
    (∀ (tid nextId : Nat) (verify : Nat → Except JsError Unit)
        (send : Nat → Except JsError String),
        1 ≤ (sendMailRun (some tid) nextId verify send p).sendAttempts) := by
  constructor
  · cases hto : p.toField with
    | none =>
      refine ⟨⟨none, "Missing required email fields: "
        ++ String.intercalate ", " ["to", "subject"]⟩,
        String.intercalate ", " ["to", "subject"], ?_, rfl⟩
      simp [createMailOptions, validateEmailOptions, mailField, h, hto]
    | some x =>
      refine ⟨⟨none, "Missing required email fields: "
        ++ String.intercalate ", " ["subject"]⟩,
        String.intercalate ", " ["subject"], ?_, rfl⟩
      simp [createMailOptions, validateEmailOptions, mailField, h, hto]
  · intro tid nextId verify send
    exact (runRetryAux_attempts (fun attempt (st : Unit) => (st, send attempt))
      (fun _ st => st) (retryTimeouts emailSendPolicy) 1 () [] []).1

theorem c5_validation_amended_witness :
    ({ toField := some "user@example.com", text := some "hello" } :
      MailPayload).subject = none ∧
    (∃ e missing, createMailOptions
        { toField := some "user@example.com", text := some "hello" }
        = .error e ∧
      e.message = "Missing required email fields: " ++ missing) ∧
    1 ≤ (sendMailRun (some 0) 1 (fun _ => .ok ()) (fun _ => .ok "queued")
      { toField := some "user@example.com", text := some "hello" }).sendAttempts :=
  ⟨rfl,
    (c5_validation_amended
      { toField := some "user@example.com", text := some "hello" } rfl).1,
    (c5_validation_amended
      { toField := some "user@example.com", text := some "hello" } rfl).2
      0 1 (fun _ => .ok ()) (fun _ => .ok "queued")⟩

/-- C6, counterexample: constructing the database pool performs no
verification probe at all (no connection acquire/release happens inside
`createPool`, which returns a live-looking handle immediately); and on the
mail side a persistently failing handshake leaves `this.transporter` assigned
to the last unverified transporter (generation 5 after 6 attempts from 0) —
a usable-looking half-initialized handle — even though the error propagates. -/
theorem c6_probe_counterexample :
    createPoolProbeEvents ⟨none, 0⟩ = [] ∧
    (createPool ⟨none, 0⟩).2.pool = some 0 ∧
    (initializeRun (fun _ => .error ⟨none, "connect ECONNREFUSED"⟩) 0
      none).result = .error ⟨none, "connect ECONNREFUSED"⟩ ∧
    (initializeRun (fun _ => .error ⟨none, "connect ECONNREFUSED"⟩) 0
      none).state.2 = some 5 := by decide

/-- C6 (amended): only the mail transport performs a construction probe：
`initialize` resolves with the transporter only after a successful `verify()`
handshake, and an exhausted probe failure propagates to the caller as the
construction error — but the transporter field is assigned before
verification, so the failed initialize still leaves the (unverified) handle
set; `createPool` itself performs no probe whatsoever — the database
verification query runs separately in `testConnection`. -/
theorem c6_probe_amended :
    (∀ s : DbState, createPoolProbeEvents s = []) ∧
    (∀ (verify : Nat → Except JsError Unit) (nextId : Nat)
        (transporter : Option Nat) (tid : Nat),
        (initializeRun verify nextId transporter).result = .ok tid →
        (initializeRun verify nextId transporter).state.2 = some tid ∧
        ∃ n, verify n = .ok ()) ∧
    (∀ (e : JsError) (nextId : Nat) (transporter : Option Nat),
        (initializeRun (fun _ => .error e) nextId transporter).result
          = .error e ∧
        (initializeRun (fun _ => .error e) nextId transporter).attempts
          = emailInitPolicy.retries + 1 ∧
        (initializeRun (fun _ => .error e) nextId transporter).state.2
          = some (nextId + emailInitPolicy.retries)) := by
  refine ⟨fun _ => rfl, ?_, ?_⟩
  · intro verify nextId transporter tid hres
    exact initializeAux_ok verify (retryTimeouts emailInitPolicy) 1
      (nextId, transporter) [] [] tid hres
  · intro e nextId transporter
    have hcf := runRetryAux_constFail (initStep (fun _ => .error e))
      (fun _ st => st) e (fun _ _ => rfl) (retryTimeouts emailInitPolicy) 1
      (nextId, transporter) 0 []
    rw [List.replicate_zero] at hcf
    have hst := initializeAux_constFail_state e (retryTimeouts emailInitPolicy)
      1 (nextId, transporter) [] []
    unfold initializeRun runRetry
    refine ⟨hcf.1, ?_, ?_⟩
    · rw [hcf.2, retryTimeouts_length, Nat.add_comm]
    · rw [hst, retryTimeouts_length]

theorem c6_probe_amended_witness :
    (initializeRun (fun _ => .ok ()) 7 none).result = .ok 7 ∧
    ((initializeRun (fun _ => .ok ()) 7 none).state.2 = some 7 ∧
      ∃ n, (fun (_ : Nat) => (.ok () : Except JsError Unit)) n = .ok ()) :=
  ⟨by decide, c6_probe_amended.2.1 (fun _ => .ok ()) 7 none 7 (by decide)⟩

/-- C7 (confirmed): a `query` run executes at most retries+1 attempts, and if
the environment makes attempt n (1 ≤ n ≤ retries+1) succeed after failing
attempts before it, the run resolves with exactly that attempt's result and
stops at attempt n — no further attempts. -/
theorem c7_attempt_bound {α : Type} :
    (∀ (behavior : Nat → Except JsError α) (s : DbState),
        (queryRun behavior s).attempts ≤ dbPolicy.retries + 1) ∧
    (∀ (behavior : Nat → Except JsError α) (s : DbState) (n : Nat) (a : α),
        1 ≤ n → n ≤ dbPolicy.retries + 1 → behavior n = .ok a →
        (∀ k, 1 ≤ k → k < n → ∃ err, behavior k = .error err) →
        (queryRun behavior s).result = .ok a ∧
        (queryRun behavior s).attempts = n) := by
  constructor
  · intro behavior s
    have hb := (runRetryAux_attempts (dbStep behavior) poolAfterFailure
      (retryTimeouts dbPolicy) 1 s [] []).2
    have hlen := retryTimeouts_length dbPolicy
    unfold queryRun runRetry
    omega
  · intro behavior s n a h1 hmax hok hfail
    have hlen := retryTimeouts_length dbPolicy
    have hres := runRetryAux_first_success (dbStep behavior) poolAfterFailure
      behavior (fun _ _ => rfl) n a hok (retryTimeouts dbPolicy) 1 s [] []
      h1 (by omega) hfail
    unfold queryRun runRetry
    exact hres

theorem c7_attempt_bound_witness :
    (queryRun (fun k => if k = 2 then .ok 7 else
        (.error ⟨some "ECONNREFUSED", "connect ECONNREFUSED"⟩ :
          Except JsError Nat)) ⟨none, 0⟩).attempts ≤ dbPolicy.retries + 1 ∧
    1 ≤ 2 ∧ 2 ≤ dbPolicy.retries + 1 ∧
    ((queryRun (fun k => if k = 2 then .ok 7 else
        (.error ⟨some "ECONNREFUSED", "connect ECONNREFUSED"⟩ :
          Except JsError Nat)) ⟨none, 0⟩).result = .ok 7 ∧
      (queryRun (fun k => if k = 2 then .ok 7 else
        (.error ⟨some "ECONNREFUSED", "connect ECONNREFUSED"⟩ :
          Except JsError Nat)) ⟨none, 0⟩).attempts = 2) :=
  ⟨c7_attempt_bound.1 (fun k => if k = 2 then .ok 7 else
      (.error ⟨some "ECONNREFUSED", "connect ECONNREFUSED"⟩ :
        Except JsError Nat)) ⟨none, 0⟩,
    by decide, by decide,
    c7_attempt_bound.2 (fun k => if k = 2 then .ok 7 else
        (.error ⟨some "ECONNREFUSED", "connect ECONNREFUSED"⟩ :
          Except JsError Nat)) ⟨none, 0⟩ 2 7 (by decide) (by decide)
      (by decide)
      (fun k hk1 hk2 =>
        ⟨⟨some "ECONNREFUSED", "connect ECONNREFUSED"⟩, by
          have hk : k = 1 := by omega
          subst hk
          rfl⟩)⟩

/-- C8 (confirmed): `createPool` is idempotent — when a handle is live it
returns that same handle with the module state completely unchanged (no
reconstruction side effect); only when the handle is absent does it construct
a fresh one from the static configuration. -/
theorem c8_acquire_idempotent (s : DbState) (q : Nat) :
    (s.pool = some q → createPool s = (q, s)) ∧
    (s.pool = none → createPool s
      = (s.nextId, { pool := some s.nextId, nextId := s.nextId + 1 })) := by
  constructor <;> intro h <;> simp [createPool, h]

theorem c8_acquire_idempotent_witness :
    (⟨some 7, 3⟩ : DbState).pool = some 7 ∧
    createPool ⟨some 7, 3⟩ = (7, ⟨some 7, 3⟩) :=
  ⟨rfl, (c8_acquire_idempotent ⟨some 7, 3⟩ 7).1 rfl⟩

/-- C9 (confirmed, implicit): in every query attempt in which a connection is
acquired from the pool, it is released exactly once before the attempt
completes — after the statement on the success path and before the error is
rethrown on the failure path — and when `getConnection` itself rejects, no
connection is held and nothing needs releasing: no attempt leaks a pool
connection. -/
theorem c9_connection_release {α : Type} (getConn : Except JsError Unit)
    (q : Except JsError α) :
    (getConn = .ok () →
      (attemptConnEvents getConn q).1 = [.acquire, .release] ∧
      ((attemptConnEvents getConn q).1.count ConnEvent.acquire = 1 ∧
        (attemptConnEvents getConn q).1.count ConnEvent.release = 1) ∧
      (attemptConnEvents getConn q).2 = q) ∧
    (∀ e, getConn = .error e →
      (attemptConnEvents getConn q).1 = [] ∧
      (attemptConnEvents getConn q).2 = .error e) := by
  constructor
  · intro h
    subst h
    cases q <;> exact ⟨rfl, ⟨rfl, rfl⟩, rfl⟩
  · intro e h
    subst h
    exact ⟨rfl, rfl⟩

theorem c9_connection_release_witness :
    ((.ok () : Except JsError Unit) = .ok ()) ∧
    ((attemptConnEvents (.ok ()) (.error ⟨some "ER_PARSE_ERROR",
        "You have an error"⟩ : Except JsError Nat)).1
      = [ConnEvent.acquire, ConnEvent.release] ∧
    ((attemptConnEvents (.ok ()) (.error ⟨some "ER_PARSE_ERROR",
        "You have an error"⟩ : Except JsError Nat)).1.count ConnEvent.acquire
        = 1 ∧
      (attemptConnEvents (.ok ()) (.error ⟨some "ER_PARSE_ERROR",
        "You have an error"⟩ : Except JsError Nat)).1.count ConnEvent.release
        = 1) ∧
    (attemptConnEvents (.ok ()) (.error ⟨some "ER_PARSE_ERROR",
        "You have an error"⟩ : Except JsError Nat)).2
      = .error ⟨some "ER_PARSE_ERROR", "You have an error"⟩) :=
  ⟨rfl, (c9_connection_release (.ok ())
    (.error ⟨some "ER_PARSE_ERROR", "You have an error"⟩ :
      Except JsError Nat)).1 rfl⟩

/-- C10 (confirmed, implicit): `sendMail` with an absent transporter first
runs the full `initialize` sequence — whose policy allows retries+1 = 6
attempts (its own retry count is 5) — before any transport attempt, and when
initialization exhausts its retries the initialization error propagates to
the `sendMail` caller with zero transport send attempts issued. -/
theorem c10_lazy_init (verify : Nat → Except JsError Unit)
    (send : Nat → Except JsError String) (options : MailPayload)
    (nextId : Nat) (e : JsError)
    (h : (initializeRun verify nextId none).result = .error e) :
    (sendMailRun none nextId verify send options).result = .error e ∧
    (sendMailRun none nextId verify send options).sendAttempts = 0 ∧
    (sendMailRun none nextId verify send options).initAttempts
      = (initializeRun verify nextId none).attempts ∧
    (sendMailRun none nextId verify send options).initAttempts
      ≤ emailInitPolicy.retries + 1 ∧
    emailInitPolicy.retries = 5 := by
  have hb : (initializeRun verify nextId none).attempts
      ≤ 1 + (retryTimeouts emailInitPolicy).length :=
    (runRetryAux_attempts (initStep verify) (fun _ st => st)
      (retryTimeouts emailInitPolicy) 1 (nextId, none) [] []).2
  have hlen := retryTimeouts_length emailInitPolicy
  rw [sendMailRun]
  dsimp only
  rw [h]
  dsimp only
  exact ⟨rfl, rfl, rfl, by omega, rfl⟩

theorem c10_lazy_init_witness :
    (initializeRun (fun _ => .error ⟨none, "Invalid greeting"⟩) 0 none).result
      = .error ⟨none, "Invalid greeting"⟩ ∧
    ((sendMailRun none 0 (fun _ => .error ⟨none, "Invalid greeting"⟩)
        (fun _ => .ok "unused")
        { toField := some "u@e.com", subject := some "s",
          text := some "t" }).result = .error ⟨none, "Invalid greeting"⟩ ∧
      (sendMailRun none 0 (fun _ => .error ⟨none, "Invalid greeting"⟩)
        (fun _ => .ok "unused")
        { toField := some "u@e.com", subject := some "s",
          text := some "t" }).sendAttempts = 0 ∧
      (sendMailRun none 0 (fun _ => .error ⟨none, "Invalid greeting"⟩)
        (fun _ => .ok "unused")
        { toField := some "u@e.com", subject := some "s",
          text := some "t" }).initAttempts
        = (initializeRun (fun _ => .error ⟨none, "Invalid greeting"⟩) 0
            none).attempts ∧
      (sendMailRun none 0 (fun _ => .error ⟨none, "Invalid greeting"⟩)
        (fun _ => .ok "unused")
        { toField := some "u@e.com", subject := some "s",
          text := some "t" }).initAttempts ≤ emailInitPolicy.retries + 1 ∧
      emailInitPolicy.retries = 5) :=
  ⟨by decide,
    c10_lazy_init (fun _ => .error ⟨none, "Invalid greeting"⟩)
      (fun _ => .ok "unused")
      { toField := some "u@e.com", subject := some "s", text := some "t" }
      0 ⟨none, "Invalid greeting"⟩ (by decide)⟩

end LicenseApp
